import Mathlib

/-!
Shallow embedding of the render-backend coordinator
(`src/webrender/src/render_backend.rs`) and proofs of the specification
claims about it.

The embedding keeps the source's structure: `Document`,
`Document.process_frame_msg`, `Document.new_async_scene_ready`,
`Document.build_frame`, the payload-reassembly algorithm of
`RenderBackend::process_scene_msg`, `RenderBackend::prepare_transaction`,
`RenderBackend::update_document`, the `MemoryPressure` arm of
`process_api_msg`, and the scene-builder-result handling of
`RenderBackend::run` (main loop and post-shutdown drain).

Collaborator crates that are not part of the given sources
(`clip_scroll_tree`, `scene`, `hit_test`, `resource_cache`,
`scene_builder`'s `Transaction` predicates, `SceneProperties`) are
modelled from the spec; each such definition carries a doc comment
starting with `Modelled from the spec:`.
-/

namespace WR

/-! ## Payload reassembly (render_backend.rs lines 474-487) -/

/-- A display-list binary payload tagged with `(epoch, pipeline_id)`
(`api::channel::Payload`). `display_list_data` stands for the binary blob. -/
structure Payload where
  epoch : Nat
  pipeline_id : Nat
  display_list_data : Nat
deriving DecidableEq, Repr

/-- The key a payload is matched by. -/
def Payload.key (p : Payload) : Nat × Nat := (p.epoch, p.pipeline_id)

/-- The match test `data.epoch == epoch && data.pipeline_id == pipeline_id`. -/
def Payload.matchesKey (p : Payload) (epoch pipeline_id : Nat) : Bool :=
  p.epoch == epoch && p.pipeline_id == pipeline_id

/-- Rust's `Vec::swap_remove(i)`: removes the element at index `i`,
replacing it with the last element. Returns `none` when `i` is out of
bounds. -/
def swapRemove (l : List Payload) (i : Nat) : Option (Payload × List Payload) :=
  match l[i]?, l.getLast? with
  | some x, some last => some (x, (l.set i last).dropLast)
  | _, _ => none

/-- The `loop { let data = self.payload_rx.recv() ... }` of `SetDisplayList`:
receive payloads in arrival order, buffering every non-matching one, until
the matching payload arrives. Returns the match, the new buffer, and the
remaining channel contents; `none` models the blocking `recv` never being
satisfied (the channel is exhausted without a match). -/
def recvUntil (epoch pipeline_id : Nat) :
    List Payload → List Payload → Option (Payload × List Payload × List Payload)
  | [], _ => none
  | d :: rest, buffer =>
    if d.matchesKey epoch pipeline_id then
      some (d, buffer, rest)
    else
      recvUntil epoch pipeline_id rest (buffer ++ [d])

/-- `iter().position(|data| data.epoch == epoch && data.pipeline_id ==
pipeline_id)`: the first index of a matching payload. -/
def findMatchIdx (epoch pipeline_id : Nat) : List Payload → Option Nat
  | [] => none
  | d :: rest =>
    if d.matchesKey epoch pipeline_id then some 0
    else (findMatchIdx epoch pipeline_id rest).map (· + 1)

/-- The payload-resolution algorithm of `SetDisplayList`
(render_backend.rs lines 474-487): first search `payload_buffer`
(`iter().position(..)` followed by `swap_remove`), and only if no buffered
payload matches, consume the payload channel in arrival order. -/
def resolvePayload (epoch pipeline_id : Nat) (buffer channel : List Payload) :
    Option (Payload × List Payload × List Payload) :=
  match findMatchIdx epoch pipeline_id buffer with
  | some idx =>
    match swapRemove buffer idx with
    | some (d, buffer') => some (d, buffer', channel)
    | none => none
  | none => recvUntil epoch pipeline_id channel buffer

/-- Resolve a whole sequence of `SetDisplayList` metadata keys in order,
threading the buffer and the channel through, and collecting the pairings. -/
def processAll :
    List (Nat × Nat) → List Payload → List Payload →
    Option (List ((Nat × Nat) × Payload) × List Payload × List Payload)
  | [], buffer, channel => some ([], buffer, channel)
  | k :: rest, buffer, channel =>
    match resolvePayload k.1 k.2 buffer channel with
    | none => none
    | some (d, buffer', channel') =>
      match processAll rest buffer' channel' with
      | none => none
      | some (pairs, bf, cf) => some ((k, d) :: pairs, bf, cf)

/-! ## Document data model (render_backend.rs lines 52-154) -/

/-- A pipeline id (`api::PipelineId`). -/
abbrev PipelineId := Nat

/-- An epoch (`api::Epoch`). -/
abbrev Epoch := Nat

/-- A document id (`api::DocumentId`): namespace id paired with an index. -/
abbrev DocId := Nat × Nat

/-- An external scroll id (`api::ExternalScrollId`): a stable id paired with
the owning pipeline. -/
abbrev ExternalScrollId := Nat × PipelineId

/-- `DocumentView` (render_backend.rs lines 55-63). Scale ratios are modelled
as integers; no claim computes with them. -/
structure DocumentView where
  window_size : Nat × Nat
  inner_rect : (Nat × Nat) × (Nat × Nat)
  layer : Int
  pan : Int × Int
  device_pixel_ratio : Int
  page_zoom_factor : Int
  pinch_zoom_factor : Int
deriving DecidableEq, Repr

/-- Modelled from the spec: the scene is resolved, pipeline-merged content
with an optional root pipeline and per-pipeline epochs (`scene::Scene`;
only the parts read by render_backend.rs are kept). -/
structure Scene where
  root_pipeline_id : Option PipelineId
  pipeline_epochs : List (PipelineId × Epoch)
deriving DecidableEq, Repr

/-- `Scene::new()`. -/
def Scene.new : Scene := ⟨none, []⟩

/-- `Scene::has_root_pipeline`. -/
def Scene.has_root_pipeline (s : Scene) : Bool := s.root_pipeline_id.isSome

/-- Modelled from the spec: `Scene::update_epoch` records the new epoch for
a pipeline. -/
def Scene.update_epoch (s : Scene) (pid : PipelineId) (epoch : Epoch) : Scene :=
  { s with pipeline_epochs :=
      if (s.pipeline_epochs.lookup pid).isSome then
        s.pipeline_epochs.map (fun kv => if kv.1 = pid then (pid, epoch) else kv)
      else
        (pid, epoch) :: s.pipeline_epochs }

/-- Modelled from the spec: the spatial (clip/scroll) tree tracks scrollable
nodes by stable external scroll identity, each holding a scroll offset
(`clip_scroll_tree::ClipScrollTree`; only what render_backend.rs calls). -/
structure ClipScrollTree where
  nodes : List (ExternalScrollId × Int)
deriving DecidableEq, Repr

/-- `ClipScrollTree::new()`. -/
def ClipScrollTree.new : ClipScrollTree := ⟨[]⟩

/-- Modelled from the spec: scrolling a node by id sets its offset; returns
whether any node actually changed position. -/
def ClipScrollTree.scroll_node (t : ClipScrollTree) (origin : Int)
    (id : ExternalScrollId) : ClipScrollTree × Bool :=
  match t.nodes.lookup id with
  | none => (t, false)
  | some off =>
    if off = origin then (t, false)
    else
      (⟨t.nodes.map (fun kv => if kv.1 = id then (id, origin) else kv)⟩, true)

/-- Modelled from the spec: scrolling the nearest scrolling ancestor of the
node under the cursor (or the first scrollable node when none was hit)
adds the delta to its offset; returns whether anything moved. -/
def ClipScrollTree.scroll_nearest_scrolling_ancestor (t : ClipScrollTree)
    (delta : Int) (node : Option ExternalScrollId) : ClipScrollTree × Bool :=
  let target := match node with
    | some id => some id
    | none => (t.nodes.map Prod.fst).head?
  match target with
  | none => (t, false)
  | some id =>
    if delta = 0 then (t, false)
    else
      match t.nodes.lookup id with
      | none => (t, false)
      | some off =>
        (⟨t.nodes.map (fun kv => if kv.1 = id then (id, off + delta) else kv)⟩, true)

/-- Modelled from the spec: `drain` empties the tree and returns the
recorded scroll offsets of the outgoing tree. -/
def ClipScrollTree.drain (t : ClipScrollTree) :
    ClipScrollTree × List (ExternalScrollId × Int) :=
  (⟨[]⟩, t.nodes)

/-- Modelled from the spec: reapply previously recorded scroll offsets onto
matching nodes of the incoming tree by external scroll identity. -/
def ClipScrollTree.finalize_and_apply_pending_scroll_offsets
    (t : ClipScrollTree) (old : List (ExternalScrollId × Int)) : ClipScrollTree :=
  ⟨t.nodes.map (fun kv => (kv.1, ((old.lookup kv.1).getD kv.2)))⟩

/-- Modelled from the spec: discard per-pipeline frame state (drop the
scroll nodes owned by the pipeline). -/
def ClipScrollTree.discard_frame_state_for_pipeline (t : ClipScrollTree)
    (pid : PipelineId) : ClipScrollTree :=
  ⟨t.nodes.filter (fun kv => kv.1.2 ≠ pid)⟩

/-- `ClipScrollTree::get_scroll_node_state`. -/
def ClipScrollTree.get_scroll_node_state (t : ClipScrollTree) :
    List (ExternalScrollId × Int) :=
  t.nodes

/-- Modelled from the spec: the dynamic-property table
(`scene::SceneProperties`) holds resolved property values plus an optional
batch of pending updates; `flush_pending_updates` reports whether a pending
batch was flushed. -/
structure SceneProperties where
  resolved : List (Nat × Int)
  pending : Option (List (Nat × Int))
deriving DecidableEq, Repr

/-- `SceneProperties::new()`. -/
def SceneProperties.new : SceneProperties := ⟨[], none⟩

/-- Modelled from the spec: `set_properties` replaces the pending batch. -/
def SceneProperties.set_properties (sp : SceneProperties)
    (props : List (Nat × Int)) : SceneProperties :=
  { sp with pending := some props }

/-- Modelled from the spec: `add_properties` appends to the pending batch. -/
def SceneProperties.add_properties (sp : SceneProperties)
    (props : List (Nat × Int)) : SceneProperties :=
  { sp with pending := some ((sp.pending.getD []) ++ props) }

/-- Modelled from the spec: flushing resolves the pending batch, if any, and
reports whether there was one. -/
def SceneProperties.flush_pending_updates (sp : SceneProperties) :
    SceneProperties × Bool :=
  match sp.pending with
  | none => (sp, false)
  | some props => (⟨props, none⟩, true)

/-- Modelled from the spec: a frame-derived structure answering picking
queries (`hit_test::HitTester`). `node_under` is the node it reports under
any cursor, `items` the result of any hit test. -/
structure HitTester where
  node_under : Option ExternalScrollId
  items : List Nat
deriving DecidableEq, Repr

/-- `HitTester::find_node_under_point`. -/
def HitTester.find_node_under_point (ht : HitTester) : Option ExternalScrollId :=
  ht.node_under

/-- `HitTester::hit_test`. -/
def HitTester.run_hit_test (ht : HitTester) : List Nat :=
  ht.items

/-- Modelled from the spec: the frame builder produced by the external scene
builder (`frame_builder::FrameBuilder`), abstracted to a token. -/
structure FrameBuilder where
  id : Nat
deriving DecidableEq, Repr

/-- Modelled from the spec: `FrameBuilder::create_hit_tester` derives a hit
tester from the just-built frame's spatial tree. -/
def FrameBuilder.create_hit_tester (_fb : FrameBuilder) (t : ClipScrollTree) :
    HitTester :=
  ⟨(t.nodes.map Prod.fst).head?, t.nodes.map (fun kv => kv.1.1)⟩

/-- `Document` (render_backend.rs lines 80-117). -/
structure Document where
  scene : Scene
  removed_pipelines : List PipelineId
  view : DocumentView
  clip_scroll_tree : ClipScrollTree
  frame_id : Nat
  frame_builder : Option FrameBuilder
  output_pipelines : List PipelineId
  hit_tester : Option HitTester
  dynamic_properties : SceneProperties
  frame_is_valid : Bool
  hit_tester_is_valid : Bool
deriving DecidableEq, Repr

/-- `Document::new` (render_backend.rs lines 120-146). -/
def Document.new (window_size : Nat × Nat) (layer : Int)
    (default_device_pixel_ratio : Int) : Document where
  scene := Scene.new
  removed_pipelines := []
  view :=
    { window_size := window_size
      inner_rect := ((0, 0), window_size)
      layer := layer
      pan := (0, 0)
      device_pixel_ratio := default_device_pixel_ratio
      page_zoom_factor := 1
      pinch_zoom_factor := 1 }
  clip_scroll_tree := ClipScrollTree.new
  frame_id := 0
  frame_builder := none
  output_pipelines := []
  hit_tester := none
  dynamic_properties := SceneProperties.new
  frame_is_valid := false
  hit_tester_is_valid := false

/-- `Document::can_render` (render_backend.rs lines 148-150). -/
def Document.can_render (doc : Document) : Bool :=
  doc.frame_builder.isSome && doc.scene.has_root_pipeline

/-- `Document::has_pixels` (render_backend.rs lines 152-154):
`!window_size.is_empty_or_negative()`. -/
def Document.has_pixels (doc : Document) : Bool :=
  doc.view.window_size.1 ≠ 0 && doc.view.window_size.2 ≠ 0

/-- `BuiltScene` delivered by the scene builder: new scene, new frame
builder, new spatial tree. -/
structure BuiltScene where
  scene : Scene
  frame_builder : FrameBuilder
  clip_scroll_tree : ClipScrollTree
deriving DecidableEq, Repr

/-! ## Messages, transactions and emitted effects -/

/-- `api::FrameMsg`: the frame operations processed by
`Document::process_frame_msg`. Reply channels become emitted effects. -/
inductive FrameMsg where
  | UpdateEpoch (pipeline_id : PipelineId) (epoch : Epoch)
  | EnableFrameOutput (pipeline_id : PipelineId) (enable : Bool)
  | Scroll (delta : Int) (cursor : Int × Int)
  | HitTest (pipeline_id : Option PipelineId) (point : Int × Int)
  | SetPan (pan : Int × Int)
  | ScrollNodeWithId (origin : Int) (id : ExternalScrollId)
  | GetScrollNodeState
  | UpdateDynamicProperties (props : List (Nat × Int))
  | AppendDynamicProperties (props : List (Nat × Int))
deriving DecidableEq, Repr

/-- `api::Checkpoint` (the ones reached inside `update_document`). -/
inductive Checkpoint where
  | SceneBuilt
  | FrameBuilt
deriving DecidableEq, Repr

/-- `api::NotificationRequest`: a callback fired when a checkpoint is
reached. -/
structure NotificationRequest where
  checkpoint_when : Checkpoint
deriving DecidableEq, Repr

/-- `api::ResourceUpdate`, restricted to the constructors
render_backend.rs inspects (`AddImage`, `UpdateImage`, everything else). -/
inductive ResourceUpdate where
  | AddImage (key : Nat) (is_blob : Bool)
  | UpdateImage (key : Nat) (is_blob : Bool)
  | Other (tag : Nat)
deriving DecidableEq, Repr

/-- Whether an update is `ResourceUpdate::UpdateImage(..)` (the test of the
invalidation loop, render_backend.rs lines 964-968). -/
def ResourceUpdate.isUpdateImage : ResourceUpdate → Bool
  | .UpdateImage _ _ => true
  | _ => false

/-- `get_blob_image_updates` (render_backend.rs lines 1173-1192). -/
def get_blob_image_updates (updates : List ResourceUpdate) : List Nat :=
  match updates with
  | [] => []
  | u :: rest =>
    match u with
    | .AddImage key is_blob =>
      if is_blob then key :: get_blob_image_updates rest
      else get_blob_image_updates rest
    | .UpdateImage key is_blob =>
      if is_blob then key :: get_blob_image_updates rest
      else get_blob_image_updates rest
    | .Other _ => get_blob_image_updates rest

/-- A queued display-list update inside a `Transaction`
(`scene_builder::DisplayListUpdate`). -/
structure DisplayListUpdate where
  pipeline_id : PipelineId
  epoch : Epoch
  display_list_data : Nat
deriving DecidableEq, Repr

/-- `scene_builder::SceneRequest`: the snapshot sent to the scene builder
when geometry must be rebuilt. -/
structure SceneRequest where
  view : DocumentView
  font_instances : List Nat
  output_pipelines : List PipelineId
  scene_id : Nat
deriving DecidableEq, Repr

/-- `scene_builder::Transaction` as assembled by `prepare_transaction`
(render_backend.rs lines 848-863). -/
structure Transaction where
  document_id : DocId
  display_list_updates : List DisplayListUpdate
  removed_pipelines : List PipelineId
  epoch_updates : List (PipelineId × Epoch)
  request_scene_build : Option SceneRequest
  blob_rasterizer : Option Nat
  blob_requests : List Nat
  resource_updates : List ResourceUpdate
  frame_ops : List FrameMsg
  notifications : List NotificationRequest
  set_root_pipeline : Option PipelineId
  build_frame : Bool
  render_frame : Bool
deriving DecidableEq, Repr

/-- Modelled from the spec: `Transaction::can_skip_scene_builder` — the
transaction contains no scene-build-requiring operations (no display-list
updates, no epoch updates, no removed pipelines, no root-pipeline change,
no blob requests, no pending scene-build request). -/
def Transaction.can_skip_scene_builder (txn : Transaction) : Bool :=
  txn.request_scene_build.isNone &&
  txn.display_list_updates.isEmpty &&
  txn.epoch_updates.isEmpty &&
  txn.removed_pipelines.isEmpty &&
  txn.set_root_pipeline.isNone &&
  txn.blob_requests.isEmpty

/-- Modelled from the spec: `Transaction::should_build_scene` — geometry
must be rebuilt when a display list or root pipeline changed. -/
def Transaction.should_build_scene (txn : Transaction) : Bool :=
  !txn.display_list_updates.isEmpty || txn.set_root_pipeline.isSome

/-- `renderer::PipelineInfo`: epoch map plus removed pipelines. -/
structure PipelineInfo where
  epochs : List (PipelineId × Epoch)
  removed_pipelines : List PipelineId
deriving DecidableEq, Repr

/-- `internal_types::RenderedDocument`. -/
structure RenderedDocument where
  frame_id : Nat
  is_new_scene : Bool
deriving DecidableEq, Repr

/-- The outward-visible actions of the coordinator: sends on the result
channel, notifier calls, sends toward the scene builder, and query
replies. -/
inductive Effect where
  | resultUpdateResources (cancel_rendering : Bool)
  | resultUpdateGpuCache
  | publishPipelineInfo (info : PipelineInfo)
  | publishDocument (document_id : DocId) (rendered : RenderedDocument)
  | notifyWakeUp
  | notifyNewFrameReady (document_id : DocId) (scroll : Bool) (render : Bool)
      (frame_build_time_is_some : Bool)
  | notifyShutDown
  | sceneBuilderSend (low_priority : Bool) (txn : Transaction)
  | sceneBuilderDeleteDocument (document_id : DocId)
  | flushReply
  | hitTestReply (items : List Nat)
  | scrollStateReply (states : List (ExternalScrollId × Int))
  | notified (checkpoint_when : Checkpoint)
deriving DecidableEq, Repr

/-- Whether an effect is a `PublishDocument` send (a frame was actually
constructed and published). -/
def Effect.isPublishDocument : Effect → Bool
  | .publishDocument _ _ => true
  | _ => false

/-- Whether an effect is a `new_frame_ready` notifier call. -/
def Effect.isNewFrameReady : Effect → Bool
  | .notifyNewFrameReady _ _ _ _ => true
  | _ => false

/-- Whether an effect is a send toward a scene-builder channel. -/
def Effect.isSceneBuilderSend : Effect → Bool
  | .sceneBuilderSend _ _ => true
  | _ => false

/-- Whether an effect is a query reply (the only effects frame-op
processing emits). -/
def Effect.isReply : Effect → Bool
  | .hitTestReply _ => true
  | .scrollStateReply _ => true
  | _ => false

/-! ## Document operations (render_backend.rs lines 156-334) -/

/-- `DocumentOps` (render_backend.rs lines 336-348). -/
structure DocumentOps where
  scroll : Bool
  build_frame : Bool
deriving DecidableEq, Repr

/-- `DocumentOps::nop()`. -/
def DocumentOps.nop : DocumentOps := ⟨false, false⟩

/-- `Document::discard_frame_state_for_pipeline`
(render_backend.rs lines 292-295). -/
def Document.discard_frame_state_for_pipeline (doc : Document)
    (pid : PipelineId) : Document :=
  { doc with clip_scroll_tree :=
      doc.clip_scroll_tree.discard_frame_state_for_pipeline pid }

/-- `Document::process_frame_msg` (render_backend.rs lines 156-244),
returning the mutated document, the `DocumentOps`, and the replies sent. -/
def Document.process_frame_msg (doc : Document) :
    FrameMsg → Document × DocumentOps × List Effect
  | .UpdateEpoch pipeline_id epoch =>
    ({ doc with scene := doc.scene.update_epoch pipeline_id epoch },
      DocumentOps.nop, [])
  | .EnableFrameOutput pipeline_id enable =>
    if enable then
      ({ doc with output_pipelines :=
          if pipeline_id ∈ doc.output_pipelines then doc.output_pipelines
          else pipeline_id :: doc.output_pipelines }, DocumentOps.nop, [])
    else
      ({ doc with output_pipelines :=
          doc.output_pipelines.filter (· ≠ pipeline_id) }, DocumentOps.nop, [])
  | .Scroll delta _cursor =>
    let node_index := match doc.hit_tester with
      | some ht => ht.find_node_under_point
      | none => none
    let doc' :=
      if doc.hit_tester.isSome then
        let (t, changed) :=
          doc.clip_scroll_tree.scroll_nearest_scrolling_ancestor delta node_index
        let doc₁ := { doc with clip_scroll_tree := t }
        if changed then
          { doc₁ with hit_tester_is_valid := false, frame_is_valid := false }
        else doc₁
      else doc
    (doc', { scroll := true, build_frame := false }, [])
  | .HitTest _pipeline_id _point =>
    let result := match doc.hit_tester with
      | some ht => ht.run_hit_test
      | none => []
    (doc, DocumentOps.nop, [.hitTestReply result])
  | .SetPan pan =>
    if doc.view.pan ≠ pan then
      let view' := { doc.view with pan := pan }
      let doc' :=
        { doc with
            view := view'
            hit_tester_is_valid := false
            frame_is_valid := false }
      (doc', DocumentOps.nop, [])
    else
      (doc, DocumentOps.nop, [])
  | .ScrollNodeWithId origin id =>
    let (t, changed) := doc.clip_scroll_tree.scroll_node origin id
    let doc₁ := { doc with clip_scroll_tree := t }
    let doc' :=
      if changed then
        { doc₁ with hit_tester_is_valid := false, frame_is_valid := false }
      else doc₁
    (doc', { scroll := true, build_frame := false }, [])
  | .GetScrollNodeState =>
    (doc, DocumentOps.nop,
      [.scrollStateReply doc.clip_scroll_tree.get_scroll_node_state])
  | .UpdateDynamicProperties props =>
    ({ doc with dynamic_properties :=
        doc.dynamic_properties.set_properties props }, DocumentOps.nop, [])
  | .AppendDynamicProperties props =>
    ({ doc with dynamic_properties :=
        doc.dynamic_properties.add_properties props }, DocumentOps.nop, [])

/-- `Document::updated_pipeline_info` (render_backend.rs lines 284-290):
takes the removed-pipeline list and snapshots the epochs. -/
def Document.updated_pipeline_info (doc : Document) : Document × PipelineInfo :=
  ({ doc with removed_pipelines := [] },
    ⟨doc.scene.pipeline_epochs, doc.removed_pipelines⟩)

/-- `Document::build_frame` (render_backend.rs lines 246-282): builds a
frame with the (present, by the `can_render` guard at the call site) frame
builder, reconstructs the hit tester from the spatial tree, and marks both
validity flags. When the builder is absent — unreachable at the guarded
call site, where the source unwraps — the document is returned unchanged. -/
def Document.build_frame (doc : Document) (is_new_scene : Bool) :
    Document × RenderedDocument :=
  match doc.frame_builder with
  | none => (doc, ⟨doc.frame_id, is_new_scene⟩)
  | some fb =>
    ({ doc with
        hit_tester := some (fb.create_hit_tester doc.clip_scroll_tree)
        frame_is_valid := true
        hit_tester_is_valid := true },
      ⟨doc.frame_id, is_new_scene⟩)

/-- `Document::new_async_scene_ready` (render_backend.rs lines 320-333):
adopt the built scene wholesale, reapply the outgoing tree's scroll
offsets, invalidate both validity flags, advance the frame id.
`FrameId` is a `u32` and `self.frame_id.0 += 1` wraps, so the increment
is taken modulo `2^32`. -/
def Document.new_async_scene_ready (doc : Document) (built : BuiltScene) :
    Document :=
  let (_, old_scrolling_states) := doc.clip_scroll_tree.drain
  { doc with
      scene := built.scene
      frame_is_valid := false
      hit_tester_is_valid := false
      frame_builder := some built.frame_builder
      clip_scroll_tree :=
        built.clip_scroll_tree.finalize_and_apply_pending_scroll_offsets
          old_scrolling_states
      frame_id := (doc.frame_id + 1) % 4294967296 }

/-! ## Resource cache (collaborator, modelled from the spec) -/

/-- Modelled from the spec: the resource cache owned by the coordinator
(`resource_cache::ResourceCache`): cached entries keyed by resource key,
a queue of pending consumer-visible updates, and the font-instance
snapshot handed to scene requests. -/
structure ResourceCache where
  entries : List (Nat × Nat)
  pending : List Nat
  font_instances : List Nat
deriving DecidableEq, Repr

/-- Modelled from the spec: `pre_scene_building_update` applies
font/registration updates ahead of scene building; the update list is
passed on for the post-scene-building application. -/
def ResourceCache.pre_scene_building_update (rc : ResourceCache)
    (updates : List ResourceUpdate) : ResourceCache × List ResourceUpdate :=
  (rc, updates)

/-- Modelled from the spec: `post_scene_building_update` applies the
resource updates to the cache. -/
def ResourceCache.post_scene_building_update (rc : ResourceCache)
    (updates : List ResourceUpdate) : ResourceCache :=
  match updates with
  | [] => rc
  | u :: rest =>
    let rc' :=
      match u with
      | .AddImage key _ => { rc with entries := (key, 0) :: rc.entries }
      | .UpdateImage key _ =>
        let entries' :=
          rc.entries.map
            (fun (kv : Nat × Nat) => if kv.1 = key then (key, kv.2 + 1) else kv)
        { rc with entries := entries' }
      | .Other _ => rc
    rc'.post_scene_building_update rest

/-- Modelled from the spec: `clear(ClearCache::all())` evicts every cached
resource and queues the evictions as pending consumer updates. -/
def ResourceCache.clear_all (rc : ResourceCache) : ResourceCache :=
  { rc with
      entries := []
      pending := rc.pending ++ rc.entries.map Prod.fst }

/-- Modelled from the spec: `pending_updates` hands the accumulated update
batch to the caller and empties the queue. -/
def ResourceCache.pending_updates (rc : ResourceCache) :
    ResourceCache × List Nat :=
  ({ rc with pending := [] }, rc.pending)

/-- Modelled from the spec: `add_rasterized_blob_images` stores rasterized
blob results delivered alongside a scene-builder transaction. -/
def ResourceCache.add_rasterized_blob_images (rc : ResourceCache)
    (blobs : List Nat) : ResourceCache :=
  { rc with entries := rc.entries ++ blobs.map (fun b => (b, 0)) }

/-- Modelled from the spec: `get_font_instances` snapshots the font
instances for a scene request. -/
def ResourceCache.get_font_instances (rc : ResourceCache) : List Nat :=
  rc.font_instances

/-! ## `update_document` (render_backend.rs lines 927-1064) -/

/-- The frame-op loop of `update_document` (lines 956-962): processes each
op in order, OR-ing each op's `DocumentOps` into the aggregate. -/
def processFrameOps (doc : Document) :
    List FrameMsg → Document × DocumentOps × List Effect
  | [] => (doc, DocumentOps.nop, [])
  | m :: ms =>
    let (doc₁, op, effs₁) := doc.process_frame_msg m
    let (doc₂, agg, effs₂) := processFrameOps doc₁ ms
    (doc₂, ⟨op.scroll || agg.scroll, op.build_frame || agg.build_frame⟩,
      effs₁ ++ effs₂)

/-- The state part of `update_document` up to the build decision
(render_backend.rs lines 939-999): sampler ops are appended when a build
is pending, frame ops are applied, content-image updates invalidate the
frame, a fresh scene swap forces a build, a dynamic-property flush
invalidates and forces a build, then the two suppressions (cannot render;
frame already valid) run. Returns the document after those stages, the
surviving build and render flags, the aggregated scroll flag, and the
query replies. -/
def updateDocPrelim (sampler : Option (List FrameMsg)) (doc : Document)
    (resource_updates : List ResourceUpdate) (frame_ops : List FrameMsg)
    (build_frame render_frame has_built_scene : Bool) :
    Document × Bool × Bool × Bool × List Effect :=
  let ops := if build_frame then frame_ops ++ sampler.getD [] else frame_ops
  let (doc₁, agg, effs) := processFrameOps doc ops
  let build₁ := build_frame || agg.build_frame
  let doc₂ :=
    if resource_updates.any ResourceUpdate.isUpdateImage then
      { doc₁ with frame_is_valid := false }
    else doc₁
  let build₂ := build₁ || has_built_scene
  let (props, flushed) := doc₂.dynamic_properties.flush_pending_updates
  let doc₃ := { doc₂ with dynamic_properties := props }
  let doc₄ :=
    if flushed then
      { doc₃ with frame_is_valid := false, hit_tester_is_valid := false }
    else doc₃
  let build₃ := if flushed then true else build₂
  let build₄ := if !doc₄.can_render then false else build₃
  let render' := if !doc₄.can_render then false else render_frame
  let build₅ := if doc₄.frame_is_valid then false else build₄
  (doc₄, build₅, render', agg.scroll, effs)

/-- The notifications drained at the `FrameBuilt` checkpoint
(render_backend.rs lines 1052-1056). -/
def frameBuiltNotifications (ns : List NotificationRequest) : List Effect :=
  (ns.filter (fun n => n.checkpoint_when = Checkpoint.FrameBuilt)).map
    (fun n => Effect.notified n.checkpoint_when)

/-- `RenderBackend::update_document` (render_backend.rs lines 927-1064) on
one document plus the caches: the single mutation point. Returns the
mutated document, the mutated resource cache, the new frame counter and
the emitted effects, in emission order. -/
def updateDocumentCore (document_id : DocId) (sampler : Option (List FrameMsg))
    (doc : Document) (rc : ResourceCache)
    (resource_updates : List ResourceUpdate) (frame_ops : List FrameMsg)
    (notifications : List NotificationRequest)
    (build_frame render_frame : Bool) (frame_counter : Nat)
    (has_built_scene : Bool) :
    Document × ResourceCache × Nat × List Effect :=
  let requested_frame := render_frame
  let (doc₁, build', render', scroll, effs₁) :=
    updateDocPrelim sampler doc resource_updates frame_ops build_frame
      render_frame has_built_scene
  let rc' := rc.post_scene_building_update resource_updates
  if build' && doc₁.has_pixels then
    let frame_counter' := frame_counter + 1
    let (doc₂, rendered) := doc₁.build_frame has_built_scene
    let (doc₃, pinfo) := doc₂.updated_pipeline_info
    (doc₃, rc', frame_counter',
      effs₁ ++
        [Effect.resultUpdateGpuCache, Effect.publishPipelineInfo pinfo,
          Effect.publishDocument document_id rendered] ++
        frameBuiltNotifications notifications ++
        (if requested_frame then
          [Effect.notifyNewFrameReady document_id scroll render' true]
        else []))
  else if requested_frame then
    let (doc₂, pinfo) := doc₁.updated_pipeline_info
    (doc₂, rc', frame_counter,
      effs₁ ++ [Effect.publishPipelineInfo pinfo] ++
        frameBuiltNotifications notifications ++
        [Effect.notifyNewFrameReady document_id scroll render' false])
  else
    (doc₁, rc', frame_counter,
      effs₁ ++ frameBuiltNotifications notifications)

/-! ## Backend state, scene messages, `prepare_transaction`
(render_backend.rs lines 368-432, 434-539, 841-925) -/

/-- The coordinator state (`RenderBackend`) — the channel endpoints become
the explicit `payload_channel` queue (contents of `payload_rx`) and
emitted effects; the sampler is modelled by the frame ops it would
return. -/
structure Backend where
  payload_buffer : List Payload
  payload_channel : List Payload
  documents : List (DocId × Document)
  resource_cache : ResourceCache
  sampler : Option (List FrameMsg)
  last_scene_id : Nat
  default_device_pixel_ratio : Int
deriving DecidableEq, Repr

/-- Replace the entry for `id` in the document table. -/
def setDocument (docs : List (DocId × Document)) (id : DocId)
    (doc : Document) : List (DocId × Document) :=
  docs.map (fun kv => if kv.1 = id then (id, doc) else kv)

/-- `api::SceneMsg`: the scene-affecting operations of a transaction. -/
inductive SceneMsg where
  | UpdateEpoch (pipeline_id : PipelineId) (epoch : Epoch)
  | SetPageZoom (factor : Int)
  | SetPinchZoom (factor : Int)
  | SetWindowParameters (window_size : Nat × Nat)
      (inner_rect : (Nat × Nat) × (Nat × Nat)) (device_pixel_ratio : Int)
  | SetDisplayList (epoch : Epoch) (pipeline_id : PipelineId)
      (preserve_frame_state : Bool)
  | SetRootPipeline (pipeline_id : PipelineId)
  | RemovePipeline (pipeline_id : PipelineId)
deriving DecidableEq, Repr

/-- `api::TransactionMsg` as submitted by the producer. -/
structure TransactionMsg where
  scene_ops : List SceneMsg
  frame_ops : List FrameMsg
  resource_updates : List ResourceUpdate
  notifications : List NotificationRequest
  generate_frame : Bool
  use_scene_builder_thread : Bool
  low_priority : Bool
deriving DecidableEq, Repr

/-- `RenderBackend::process_scene_msg` (render_backend.rs lines 434-539):
folds one scene op into the document view and the transaction; a
`SetDisplayList` resolves its payload through the reassembly buffer.
`none` models the `expect("No document?")` panic and an unsatisfiable
payload `recv`. -/
def processSceneMsg (st : Backend) (document_id : DocId) (msg : SceneMsg)
    (txn : Transaction) : Option (Backend × Transaction) :=
  match st.documents.lookup document_id with
  | none => none
  | some doc =>
    match msg with
    | .UpdateEpoch pipeline_id epoch =>
      some (st, { txn with epoch_updates := txn.epoch_updates ++ [(pipeline_id, epoch)] })
    | .SetPageZoom factor =>
      let doc' := { doc with view := { doc.view with page_zoom_factor := factor } }
      some ({ st with documents := setDocument st.documents document_id doc' }, txn)
    | .SetPinchZoom factor =>
      let doc' := { doc with view := { doc.view with pinch_zoom_factor := factor } }
      some ({ st with documents := setDocument st.documents document_id doc' }, txn)
    | .SetWindowParameters window_size inner_rect device_pixel_ratio =>
      let view' :=
        { doc.view with
            window_size := window_size
            inner_rect := inner_rect
            device_pixel_ratio := device_pixel_ratio }
      let doc' := { doc with view := view' }
      some ({ st with documents := setDocument st.documents document_id doc' }, txn)
    | .SetDisplayList epoch pipeline_id preserve_frame_state =>
      match resolvePayload epoch pipeline_id st.payload_buffer st.payload_channel with
      | none => none
      | some (data, buffer', channel') =>
        let doc' :=
          if !preserve_frame_state then
            doc.discard_frame_state_for_pipeline pipeline_id
          else doc
        let st' :=
          { st with
              payload_buffer := buffer'
              payload_channel := channel'
              documents := setDocument st.documents document_id doc' }
        let dlu : DisplayListUpdate :=
          ⟨pipeline_id, epoch, data.display_list_data⟩
        some (st', { txn with display_list_updates := txn.display_list_updates ++ [dlu] })
    | .SetRootPipeline pipeline_id =>
      some (st, { txn with set_root_pipeline := some pipeline_id })
    | .RemovePipeline pipeline_id =>
      some (st, { txn with removed_pipelines := txn.removed_pipelines ++ [pipeline_id] })

/-- Fold `process_scene_msg` over the scene ops of a transaction, in order
(render_backend.rs lines 870-879). -/
def processSceneMsgs (st : Backend) (document_id : DocId) :
    List SceneMsg → Transaction → Option (Backend × Transaction)
  | [], txn => some (st, txn)
  | m :: ms, txn =>
    match processSceneMsg st document_id m txn with
    | none => none
    | some (st', txn') => processSceneMsgs st' document_id ms txn'

/-- The transaction-assembly prefix of `prepare_transaction`
(render_backend.rs lines 848-888): build the `Transaction`, run the
pre-scene-building resource update, fold the scene ops, and collect blob
requests. -/
def assembleTransaction (st : Backend) (document_id : DocId)
    (m : TransactionMsg) : Option (Backend × Transaction) :=
  let txn : Transaction :=
    { document_id := document_id
      display_list_updates := []
      removed_pipelines := []
      epoch_updates := []
      request_scene_build := none
      blob_rasterizer := none
      blob_requests := []
      resource_updates := m.resource_updates
      frame_ops := m.frame_ops
      notifications := m.notifications
      set_root_pipeline := none
      build_frame := m.generate_frame
      render_frame := m.generate_frame }
  let (rc₁, updates₁) :=
    st.resource_cache.pre_scene_building_update txn.resource_updates
  let st₁ := { st with resource_cache := rc₁ }
  let txn₁ := { txn with resource_updates := updates₁ }
  match processSceneMsgs st₁ document_id m.scene_ops txn₁ with
  | none => none
  | some (st₂, txn₂) =>
    let blobs_to_rasterize := get_blob_image_updates txn₂.resource_updates
    let txn₃ :=
      if !blobs_to_rasterize.isEmpty then
        { txn₂ with
            blob_requests := blobs_to_rasterize
            blob_rasterizer := some 0 }
      else txn₂
    some (st₂, txn₃)

/-- `RenderBackend::update_document` at the backend level: looks the
document up (`none` models the `unwrap` panic on a missing id) and runs
`updateDocumentCore`. -/
def updateDocument (st : Backend) (document_id : DocId)
    (resource_updates : List ResourceUpdate) (frame_ops : List FrameMsg)
    (notifications : List NotificationRequest)
    (build_frame render_frame : Bool) (frame_counter : Nat)
    (has_built_scene : Bool) : Option (Backend × Nat × List Effect) :=
  match st.documents.lookup document_id with
  | none => none
  | some doc =>
    let (doc', rc', frame_counter', effs) :=
      updateDocumentCore document_id st.sampler doc st.resource_cache
        resource_updates frame_ops notifications build_frame render_frame
        frame_counter has_built_scene
    some
      ({ st with
          documents := setDocument st.documents document_id doc'
          resource_cache := rc' },
        frame_counter', effs)

/-- `RenderBackend::prepare_transaction` (render_backend.rs lines 841-925):
assemble the transaction; on the fast path apply it immediately through
`update_document`, otherwise allocate a scene id, snapshot a
`SceneRequest` when geometry must be rebuilt, and send the transaction to
the chosen priority channel. -/
def prepareTransaction (st : Backend) (document_id : DocId)
    (m : TransactionMsg) (frame_counter : Nat) :
    Option (Backend × Nat × List Effect) :=
  match assembleTransaction st document_id m with
  | none => none
  | some (st₁, txn) =>
    if !m.use_scene_builder_thread && txn.can_skip_scene_builder then
      updateDocument st₁ txn.document_id txn.resource_updates txn.frame_ops
        txn.notifications txn.build_frame txn.render_frame frame_counter false
    else
      let scene_id := st₁.last_scene_id + 1
      let st₂ := { st₁ with last_scene_id := scene_id }
      match st₂.documents.lookup document_id with
      | none => none
      | some doc =>
        let req : SceneRequest :=
          ⟨doc.view, st₂.resource_cache.get_font_instances,
            doc.output_pipelines, scene_id⟩
        let txn' :=
          if txn.should_build_scene then
            { txn with request_scene_build := some req }
          else txn
        some (st₂, frame_counter,
          [Effect.sceneBuilderSend m.low_priority txn'])

/-! ## API messages (render_backend.rs lines 657-839) -/

/-- `api::ApiMsg`, restricted to the arms the claims are about plus the
document-lifecycle arms. -/
inductive ApiMsg where
  | WakeUp
  | AddDocument (document_id : DocId) (initial_size : Nat × Nat) (layer : Int)
  | DeleteDocument (document_id : DocId)
  | ClearNamespace (namespace_id : Nat)
  | MemoryPressure
  | ShutDown
  | UpdateDocument (document_id : DocId) (txn : TransactionMsg)
deriving DecidableEq, Repr

/-- `RenderBackend::process_api_msg` (render_backend.rs lines 657-839) for
the modelled arms. Returns the new state, frame counter, emitted effects,
and the `keep_going` flag; `none` models a panic inside message
handling. -/
def processApiMsg (st : Backend) (msg : ApiMsg) (frame_counter : Nat) :
    Option (Backend × Nat × List Effect × Bool) :=
  match msg with
  | .WakeUp => some (st, frame_counter, [], true)
  | .AddDocument document_id initial_size layer =>
    let doc := Document.new initial_size layer st.default_device_pixel_ratio
    some ({ st with documents := st.documents ++ [(document_id, doc)] },
      frame_counter, [], true)
  | .DeleteDocument document_id =>
    some
      ({ st with documents :=
          st.documents.filter (fun kv => kv.1 ≠ document_id) },
        frame_counter, [Effect.sceneBuilderDeleteDocument document_id], true)
  | .ClearNamespace namespace_id =>
    some
      ({ st with documents :=
          st.documents.filter (fun kv => kv.1.1 ≠ namespace_id) },
        frame_counter, [], true)
  | .MemoryPressure =>
    let rc₁ := st.resource_cache.clear_all
    let (rc₂, _pending_update) := rc₁.pending_updates
    some ({ st with resource_cache := rc₂ }, frame_counter,
      [Effect.resultUpdateResources true, Effect.notifyWakeUp], true)
  | .ShutDown => some (st, frame_counter, [], false)
  | .UpdateDocument document_id txn =>
    match prepareTransaction st document_id txn frame_counter with
    | none => none
    | some (st', frame_counter', effs) =>
      some (st', frame_counter', effs, true)

/-! ## Scene-builder results: main loop and post-shutdown drain
(render_backend.rs lines 551-655) -/

/-- `scene_builder::SceneBuilderResult`, as drained from `scene_rx`. -/
inductive SceneBuilderResultMsg where
  | transaction (document_id : DocId) (built_scene : Option BuiltScene)
      (removed_pipelines : List PipelineId) (rasterized_blobs : List Nat)
      (resource_updates : List ResourceUpdate) (frame_ops : List FrameMsg)
      (notifications : List NotificationRequest)
      (build_frame render_frame : Bool)
  | flushComplete
  | stopped
deriving DecidableEq, Repr

/-- An outcome that distinguishes normal completion from a fatal `panic!`. -/
inductive Outcome (α : Type) where
  | ok (value : α)
  | fatal (message : String)
deriving DecidableEq, Repr

/-- Handling of one scene-builder result inside the main loop
(render_backend.rs lines 562-618): a `Transaction` is applied to its
document (skipped, with an abort notice, when the document was deleted),
a `FlushComplete` is answered, and a `Stopped` before any `Stop` was sent
is a protocol violation — `panic!`. -/
def handleSceneResultMainLoop (st : Backend) (frame_counter : Nat) :
    SceneBuilderResultMsg → Outcome (Backend × Nat × List Effect)
  | .transaction document_id built_scene removed_pipelines rasterized_blobs
      resource_updates frame_ops notifications build_frame render_frame =>
    match st.documents.lookup document_id with
    | none =>
      -- The document was removed while we were building it, skip it.
      Outcome.ok (st, frame_counter, [])
    | some doc =>
      let doc₁ :=
        { doc with removed_pipelines := doc.removed_pipelines ++ removed_pipelines }
      let doc₂ :=
        match built_scene with
        | some built => doc₁.new_async_scene_ready built
        | none => doc₁
      let rc₁ := st.resource_cache.add_rasterized_blob_images rasterized_blobs
      let st₁ :=
        { st with
            documents := setDocument st.documents document_id doc₂
            resource_cache := rc₁ }
      match updateDocument st₁ document_id resource_updates frame_ops
          notifications build_frame render_frame frame_counter
          built_scene.isSome with
      | none => Outcome.fatal "no document"
      | some (st₂, frame_counter', effs) =>
        Outcome.ok (st₂, frame_counter', effs)
  | .flushComplete => Outcome.ok (st, frame_counter, [Effect.flushReply])
  | .stopped =>
    Outcome.fatal "We have not sent a Stop yet, how did we get a Stopped back?"

/-- The post-shutdown drain (render_backend.rs lines 635-647): read
everything the scene builder is still sending; answer `FlushComplete`,
break on `Stopped`, and `continue` past anything else. The list is the
channel contents up to closure. -/
def drainSceneBuilder : List SceneBuilderResultMsg → Outcome (List Effect)
  | [] => Outcome.ok []
  | msg :: rest =>
    match msg with
    | .flushComplete =>
      match drainSceneBuilder rest with
      | Outcome.ok effs => Outcome.ok (Effect.flushReply :: effs)
      | Outcome.fatal m => Outcome.fatal m
    | .stopped => Outcome.ok []
    | .transaction _ _ _ _ _ _ _ _ _ => drainSceneBuilder rest

/-! ## Single-document traces (for the `frame_is_valid` invariant)

Every mutation of one document goes through the `Transaction` arm of the
run loop (optional scene swap, then `update_document` with
`has_built_scene`) or through the fast path of `prepare_transaction`
(`update_document` with `has_built_scene = false`). Both are instances of
one event shape. -/

/-- One transaction applied to a single document: an optional built scene
accepted just before (`new_async_scene_ready`), then `update_document`
with the transaction's resource updates, frame ops and build/render
intent. `built = none, removed = [], blobs = []` is exactly the fast
path. -/
structure DocEvent where
  built : Option BuiltScene
  removed : List PipelineId
  blobs : List Nat
  resource_updates : List ResourceUpdate
  frame_ops : List FrameMsg
  notifications : List NotificationRequest
  build_frame : Bool
  render_frame : Bool
deriving DecidableEq, Repr

/-- The state threaded through a single-document trace. -/
structure DocState where
  doc : Document
  rc : ResourceCache
  frame_counter : Nat
  sampler : Option (List FrameMsg)
deriving DecidableEq, Repr

/-- The document right after the removed-pipeline append and the optional
scene swap of the run loop's `Transaction` arm, before `update_document`
runs. -/
def eventDocAfterSwap (s : DocState) (e : DocEvent) : Document :=
  let doc₀ :=
    { s.doc with removed_pipelines := s.doc.removed_pipelines ++ e.removed }
  match e.built with
  | some built => doc₀.new_async_scene_ready built
  | none => doc₀

/-- Apply one event: append the removed pipelines, accept the built scene
if there is one (run loop, render_backend.rs lines 566-598), then run
`update_document` (lines 600-610 resp. 891-901). -/
def applyDocEvent (document_id : DocId) (s : DocState) (e : DocEvent) :
    DocState × List Effect :=
  let doc₁ := eventDocAfterSwap s e
  let rc₀ := s.rc.add_rasterized_blob_images e.blobs
  let (doc₂, rc₁, fc', effs) :=
    updateDocumentCore document_id s.sampler doc₁ rc₀ e.resource_updates
      e.frame_ops e.notifications e.build_frame e.render_frame
      s.frame_counter e.built.isSome
  (⟨doc₂, rc₁, fc', s.sampler⟩, effs)

/-- Run a sequence of events from a state. -/
def runDocEvents (document_id : DocId) (s : DocState) :
    List DocEvent → DocState
  | [] => s
  | e :: es => runDocEvents document_id (applyDocEvent document_id s e).1 es

/-- Spec-side predicate: is this frame op an invalidating event on this
document — a scroll that actually moves content, or a pan change? The
invalidation flags are not consulted; the predicate re-derives the
movement from the spatial tree and the view. -/
def invalidatingFrameOp (doc : Document) : FrameMsg → Bool
  | .Scroll delta _cursor =>
    let node_index := match doc.hit_tester with
      | some ht => ht.find_node_under_point
      | none => none
    doc.hit_tester.isSome &&
      (doc.clip_scroll_tree.scroll_nearest_scrolling_ancestor delta node_index).2
  | .ScrollNodeWithId origin id =>
    (doc.clip_scroll_tree.scroll_node origin id).2
  | .SetPan pan => doc.view.pan ≠ pan
  | _ => false

/-- Spec-side predicate over a frame-op list: does any op in it, applied in
order, invalidate? -/
def anyInvalidatingOp (doc : Document) : List FrameMsg → Bool
  | [] => false
  | m :: ms =>
    invalidatingFrameOp doc m || anyInvalidatingOp (doc.process_frame_msg m).1 ms

/-- Spec-side predicate: does this event contain an invalidating event —
scene swap, scroll, pan change, content-image update, or
dynamic-property flush? -/
def eventInvalidates (s : DocState) (e : DocEvent) : Bool :=
  let doc₁ := eventDocAfterSwap s e
  let ops :=
    if e.build_frame then e.frame_ops ++ s.sampler.getD [] else e.frame_ops
  e.built.isSome ||
    anyInvalidatingOp doc₁ ops ||
    e.resource_updates.any ResourceUpdate.isUpdateImage ||
    (processFrameOps doc₁ ops).1.dynamic_properties.pending.isSome

/-- Observable: did this event actually build (and publish) a frame? -/
def eventBuildsFrame (document_id : DocId) (s : DocState) (e : DocEvent) :
    Bool :=
  ((applyDocEvent document_id s e).2).any Effect.isPublishDocument

/-- The spec-side fold: `frame_is_valid` should equal "a frame build has
occurred since the last invalidating event". Within one event the
invalidating events precede the build, so the event's build, when it
happens, wins. -/
def specFrameValid (document_id : DocId) (s : DocState) (expected : Bool) :
    List DocEvent → Bool
  | [] => expected
  | e :: es =>
    let expected' :=
      if eventBuildsFrame document_id s e then true
      else if eventInvalidates s e then false
      else expected
    specFrameValid document_id (applyDocEvent document_id s e).1 expected' es

/-- The replies the post-shutdown drain is expected to produce: answer each
flush completion, stop at the first stopped signal, skip everything
else. -/
def drainSpecReplies : List SceneBuilderResultMsg → List Effect
  | [] => []
  | .flushComplete :: rest => Effect.flushReply :: drainSpecReplies rest
  | .stopped :: _ => []
  | .transaction _ _ _ _ _ _ _ _ _ :: rest => drainSpecReplies rest

/-- The keys of a payload list. -/
def payloadKeys (l : List Payload) : List (Nat × Nat) :=
  l.map Payload.key

/-! ## Theorems -/

/-- C4 counterexample: at frame id `u32::MAX` (4294967295) the
`frame_id.0 += 1` of `new_async_scene_ready` wraps to 0, so the frame id
neither equals the old value plus one nor is strictly larger than before
the swap. -/
theorem new_async_scene_ready_wrap_counterexample :
    (({ Document.new (1, 1) 0 1 with
        frame_id := 4294967295 } : Document).new_async_scene_ready
      ⟨Scene.new, ⟨0⟩, ClipScrollTree.new⟩).frame_id = 0 ∧
    ¬ ((({ Document.new (1, 1) 0 1 with
          frame_id := 4294967295 } : Document).new_async_scene_ready
        ⟨Scene.new, ⟨0⟩, ClipScrollTree.new⟩).frame_id = 4294967295 + 1) ∧
    ¬ (4294967295 <
        (({ Document.new (1, 1) 0 1 with
            frame_id := 4294967295 } : Document).new_async_scene_ready
          ⟨Scene.new, ⟨0⟩, ClipScrollTree.new⟩).frame_id) := by
  refine ⟨by decide, by decide, by decide⟩

/-- C4 (amended): scene swap postcondition — `new_async_scene_ready`
replaces the scene and frame builder wholesale, adopts the new spatial
tree with the outgoing tree's recorded scroll offsets reapplied onto
matching nodes by external scroll identity, clears `frame_is_valid` and
`hit_tester_is_valid`, and advances the frame id by exactly one modulo
`2^32` (the `u32` counter wraps at `u32::MAX`; whenever the incremented
value stays below `2^32` the new frame id is strictly larger than before
the swap). -/
theorem new_async_scene_ready_postcondition_amended (doc : Document)
    (built : BuiltScene) :
    (doc.new_async_scene_ready built).scene = built.scene ∧
    (doc.new_async_scene_ready built).frame_builder = some built.frame_builder ∧
    (doc.new_async_scene_ready built).frame_is_valid = false ∧
    (doc.new_async_scene_ready built).hit_tester_is_valid = false ∧
    (doc.new_async_scene_ready built).frame_id =
      (doc.frame_id + 1) % 4294967296 ∧
    (doc.frame_id + 1 < 4294967296 →
      doc.frame_id < (doc.new_async_scene_ready built).frame_id) ∧
    (doc.new_async_scene_ready built).clip_scroll_tree.nodes =
      built.clip_scroll_tree.nodes.map
        (fun kv => (kv.1, ((doc.clip_scroll_tree.nodes.lookup kv.1).getD kv.2))) := by
  refine ⟨rfl, rfl, rfl, rfl, rfl, ?_, ?_⟩
  · intro h
    have hmod : (doc.new_async_scene_ready built).frame_id =
        (doc.frame_id + 1) % 4294967296 := rfl
    rw [hmod, Nat.mod_eq_of_lt h]
    exact Nat.lt_succ_self _
  · simp [Document.new_async_scene_ready, ClipScrollTree.drain,
      ClipScrollTree.finalize_and_apply_pending_scroll_offsets]

/-- Witness for the amended C4 at a concrete document below the wrap
point. -/
theorem new_async_scene_ready_postcondition_amended_witness :
    ((Document.new (1, 1) 0 1).frame_id + 1 < 4294967296) ∧
    (Document.new (1, 1) 0 1).frame_id <
      ((Document.new (1, 1) 0 1).new_async_scene_ready
        ⟨Scene.new, ⟨0⟩, ClipScrollTree.new⟩).frame_id :=
  ⟨by decide,
    (new_async_scene_ready_postcondition_amended (Document.new (1, 1) 0 1)
        ⟨Scene.new, ⟨0⟩, ClipScrollTree.new⟩).2.2.2.2.2.1 (by decide)⟩

/-- C9: a hit-test frame operation against a document whose hit tester is
absent replies with an empty item list and leaves the document
unchanged. -/
theorem hit_test_absent_tester_empty_reply (doc : Document)
    (pid : Option PipelineId) (pt : Int × Int) :
    Document.process_frame_msg { doc with hit_tester := none }
        (FrameMsg.HitTest pid pt) =
      ({ doc with hit_tester := none }, DocumentOps.nop,
        [Effect.hitTestReply []]) := by
  rfl

/-- C10: a `SetPan` whose value equals the current pan is a complete
no-op; only a different value updates the pan and clears both validity
flags. -/
theorem set_pan_equal_is_noop (doc : Document) (pan : Int × Int) :
    doc.process_frame_msg (FrameMsg.SetPan pan) =
      ((if doc.view.pan = pan then doc
        else
          { doc with
              view := { doc.view with pan := pan }
              frame_is_valid := false
              hit_tester_is_valid := false }),
        DocumentOps.nop, []) := by
  by_cases h : doc.view.pan = pan <;>
    simp [Document.process_frame_msg, h]

/-- C6: memory pressure clears the entire resource cache (empty
afterward), emits exactly one resource-update broadcast with the
cancel-rendering flag set, wakes the consumer, and leaves every document
untouched. -/
theorem memory_pressure_hard_reset (st : Backend) (fc : Nat) :
    ∃ st' : Backend,
      processApiMsg st ApiMsg.MemoryPressure fc =
        some (st', fc,
          [Effect.resultUpdateResources true, Effect.notifyWakeUp], true) ∧
      st'.resource_cache.entries = [] ∧
      st'.documents = st.documents := by
  exact ⟨_, rfl, rfl, rfl⟩

/-- C5 counterexample: a `Transaction` completion received during the
post-shutdown drain is skipped (`continue`), not fatal — the drain
finishes normally. -/
theorem drain_unexpected_completion_not_fatal :
    drainSceneBuilder
      [SceneBuilderResultMsg.transaction (0, 0) none [] [] [] [] [] false false,
        SceneBuilderResultMsg.stopped] = Outcome.ok [] := by
  rfl

/-- C5 (amended): during the post-shutdown drain only flush-complete
results are answered and the drain stops at the first stopped result;
any other completion is skipped rather than fatal. A stopped result
received in the main loop — before shutdown was requested — is fatal. -/
theorem drain_skips_unexpected_and_early_stopped_fatal :
    (∀ msgs : List SceneBuilderResultMsg,
        drainSceneBuilder msgs = Outcome.ok (drainSpecReplies msgs)) ∧
    (∀ (st : Backend) (fc : Nat),
        handleSceneResultMainLoop st fc SceneBuilderResultMsg.stopped =
          Outcome.fatal
            "We have not sent a Stop yet, how did we get a Stopped back?") := by
  constructor
  · intro msgs
    induction msgs with
    | nil => rfl
    | cons m rest ih =>
      cases m <;> simp [drainSceneBuilder, drainSpecReplies, ih]
  · intro st fc
    rfl

/-! ### Effect classification helpers -/

theorem reply_not_special (ef : Effect) (h : ef.isReply = true) :
    ef.isPublishDocument = false ∧ ef.isNewFrameReady = false ∧
      ef.isSceneBuilderSend = false := by
  cases ef <;> simp_all [Effect.isReply, Effect.isPublishDocument,
    Effect.isNewFrameReady, Effect.isSceneBuilderSend]

theorem process_frame_msg_effects_reply (doc : Document) (m : FrameMsg) :
    ∀ ef ∈ (doc.process_frame_msg m).2.2, ef.isReply = true := by
  intro ef hef
  cases m with
  | UpdateEpoch p e => simp [Document.process_frame_msg] at hef
  | EnableFrameOutput p en =>
    cases en <;> simp [Document.process_frame_msg] at hef
  | Scroll d c => simp [Document.process_frame_msg] at hef
  | HitTest p q =>
    simp [Document.process_frame_msg] at hef
    simp [hef, Effect.isReply]
  | SetPan p =>
    by_cases h : doc.view.pan = p <;> simp [Document.process_frame_msg, h] at hef
  | ScrollNodeWithId o i => simp [Document.process_frame_msg] at hef
  | GetScrollNodeState =>
    simp [Document.process_frame_msg] at hef
    simp [hef, Effect.isReply]
  | UpdateDynamicProperties ps => simp [Document.process_frame_msg] at hef
  | AppendDynamicProperties ps => simp [Document.process_frame_msg] at hef

theorem processFrameOps_effects_reply (ops : List FrameMsg) :
    ∀ (doc : Document), ∀ ef ∈ (processFrameOps doc ops).2.2,
      ef.isReply = true := by
  induction ops with
  | nil => intro doc ef hef; simp [processFrameOps] at hef
  | cons m ms ih =>
    intro doc ef hef
    rcases h1 : doc.process_frame_msg m with ⟨d1, op, e1⟩
    rcases h2 : processFrameOps d1 ms with ⟨d2, agg, e2⟩
    simp only [processFrameOps, h1, h2, List.mem_append] at hef
    rcases hef with hef | hef
    · have := process_frame_msg_effects_reply doc m ef
      rw [h1] at this
      exact this hef
    · have := ih d1 ef
      rw [h2] at this
      exact this hef

/-! ### Characterization of the `update_document` stages -/

theorem updateDocPrelim_char (sampler : Option (List FrameMsg)) (doc : Document)
    (ru : List ResourceUpdate) (fops : List FrameMsg) (b r hbs : Bool)
    (d1 : Document) (agg : DocumentOps) (effs : List Effect)
    (h1 : processFrameOps doc (if b then fops ++ sampler.getD [] else fops) =
      (d1, agg, effs)) :
    updateDocPrelim sampler doc ru fops b r hbs =
      ({ d1 with
          frame_is_valid :=
            (d1.frame_is_valid && !(ru.any ResourceUpdate.isUpdateImage)) &&
              !d1.dynamic_properties.pending.isSome
          hit_tester_is_valid :=
            d1.hit_tester_is_valid && !d1.dynamic_properties.pending.isSome
          dynamic_properties := d1.dynamic_properties.flush_pending_updates.1 },
        ((((b || agg.build_frame) || hbs) ||
            d1.dynamic_properties.pending.isSome) && d1.can_render) &&
          !((d1.frame_is_valid && !(ru.any ResourceUpdate.isUpdateImage)) &&
            !d1.dynamic_properties.pending.isSome),
        r && d1.can_render,
        agg.scroll,
        effs) := by
  simp only [updateDocPrelim, h1]
  cases himg : ru.any ResourceUpdate.isUpdateImage <;>
    rcases hp : d1.dynamic_properties.pending with _ | props <;>
    simp [SceneProperties.flush_pending_updates, hp, Document.can_render,
      Scene.has_root_pipeline] <;>
    cases hfb : d1.frame_builder <;>
    cases hrp : d1.scene.root_pipeline_id <;>
    cases hfv : d1.frame_is_valid <;>
    simp_all [Document.can_render, Scene.has_root_pipeline]

theorem updateDocPrelim_effects_reply (sampler : Option (List FrameMsg))
    (doc : Document) (ru : List ResourceUpdate) (fops : List FrameMsg)
    (b r hbs : Bool) :
    ∀ ef ∈ (updateDocPrelim sampler doc ru fops b r hbs).2.2.2.2,
      ef.isReply = true := by
  rcases h1 : processFrameOps doc (if b then fops ++ sampler.getD [] else fops)
    with ⟨d1, agg, effs⟩
  rw [updateDocPrelim_char sampler doc ru fops b r hbs d1 agg effs h1]
  intro ef hef
  have := processFrameOps_effects_reply
    (if b then fops ++ sampler.getD [] else fops) doc ef
  rw [h1] at this
  exact this hef

theorem replies_any_false (l : List Effect)
    (hall : ∀ ef ∈ l, ef.isReply = true) (p : Effect → Bool)
    (hp : ∀ ef, ef.isReply = true → p ef = false) :
    l.any p = false := by
  rw [List.any_eq_false]
  intro ef hef
  simp [hp ef (hall ef hef)]

theorem frameBuiltNotifications_mem (ns : List NotificationRequest) :
    ∀ ef ∈ frameBuiltNotifications ns, ef = Effect.notified Checkpoint.FrameBuilt := by
  intro ef hef
  simp only [frameBuiltNotifications, List.mem_map, List.mem_filter] at hef
  rcases hef with ⟨n, ⟨_, hw⟩, rfl⟩
  simp_all

/-- The invalidation behaviour of one frame op: the flag is cleared exactly
by the spec-side invalidating ops and is never set. -/
theorem process_frame_msg_frame_is_valid (doc : Document) (m : FrameMsg) :
    (doc.process_frame_msg m).1.frame_is_valid =
      (doc.frame_is_valid && !invalidatingFrameOp doc m) := by
  cases m with
  | UpdateEpoch p e => simp [Document.process_frame_msg, invalidatingFrameOp]
  | EnableFrameOutput p en =>
    cases en <;> simp [Document.process_frame_msg, invalidatingFrameOp]
  | Scroll delta cursor =>
    cases hht : doc.hit_tester with
    | none => simp [Document.process_frame_msg, invalidatingFrameOp, hht]
    | some ht =>
      rcases hs : doc.clip_scroll_tree.scroll_nearest_scrolling_ancestor delta
          ht.find_node_under_point with ⟨t, changed⟩
      cases changed <;>
        simp [Document.process_frame_msg, invalidatingFrameOp, hht, hs]
  | HitTest p q => simp [Document.process_frame_msg, invalidatingFrameOp]
  | SetPan pan =>
    by_cases h : doc.view.pan = pan <;>
      simp [Document.process_frame_msg, invalidatingFrameOp, h]
  | ScrollNodeWithId o i =>
    rcases hs : doc.clip_scroll_tree.scroll_node o i with ⟨t, changed⟩
    cases changed <;>
      simp [Document.process_frame_msg, invalidatingFrameOp, hs]
  | GetScrollNodeState => simp [Document.process_frame_msg, invalidatingFrameOp]
  | UpdateDynamicProperties ps =>
    simp [Document.process_frame_msg, invalidatingFrameOp]
  | AppendDynamicProperties ps =>
    simp [Document.process_frame_msg, invalidatingFrameOp]

/-- Lifting the previous lemma over a frame-op list. -/
theorem processFrameOps_frame_is_valid (ops : List FrameMsg) :
    ∀ doc : Document,
      (processFrameOps doc ops).1.frame_is_valid =
        (doc.frame_is_valid && !anyInvalidatingOp doc ops) := by
  induction ops with
  | nil => intro doc; simp [processFrameOps, anyInvalidatingOp]
  | cons m ms ih =>
    intro doc
    rcases h1 : doc.process_frame_msg m with ⟨da, op, ea⟩
    rcases h2 : processFrameOps da ms with ⟨db, agg, eb⟩
    have hstep := process_frame_msg_frame_is_valid doc m
    rw [h1] at hstep
    have hih := ih da
    rw [h2] at hih
    simp only [processFrameOps, h1, h2, anyInvalidatingOp]
    simp only [] at hstep hih
    simp [hih, hstep, Bool.not_or, Bool.and_assoc]

theorem updateDocumentCore_publish_iff (did : DocId)
    (sampler : Option (List FrameMsg)) (doc : Document) (rc : ResourceCache)
    (ru : List ResourceUpdate) (fops : List FrameMsg)
    (ns : List NotificationRequest) (b r : Bool) (fc : Nat) (hbs : Bool) :
    ((updateDocumentCore did sampler doc rc ru fops ns b r fc hbs).2.2.2.any
        Effect.isPublishDocument) =
      ((updateDocPrelim sampler doc ru fops b r hbs).2.1 &&
        (updateDocPrelim sampler doc ru fops b r hbs).1.has_pixels) := by
  rcases hpre : updateDocPrelim sampler doc ru fops b r hbs
    with ⟨d4, b5, r5, sc, effs⟩
  have heffs : ∀ ef ∈ effs, ef.isReply = true := by
    have h := updateDocPrelim_effects_reply sampler doc ru fops b r hbs
    rw [hpre] at h
    exact h
  have heffsP : effs.any Effect.isPublishDocument = false :=
    replies_any_false effs heffs _ (fun ef h => (reply_not_special ef h).1)
  have hnotifP :
      (frameBuiltNotifications ns).any Effect.isPublishDocument = false := by
    rw [List.any_eq_false]
    intro ef hef
    rw [frameBuiltNotifications_mem ns ef hef]
    simp [Effect.isPublishDocument]
  rcases hbf : d4.build_frame hbs with ⟨docb, rendered⟩
  simp only [updateDocumentCore, hpre, hbf]
  cases hb : b5 && d4.has_pixels <;>
    cases hr : r <;>
    simp [hb, Document.updated_pipeline_info, Effect.isPublishDocument,
      List.any_append, heffsP, hnotifP]

theorem updateDocumentCore_new_frame_ready (did : DocId)
    (sampler : Option (List FrameMsg)) (doc : Document) (rc : ResourceCache)
    (ru : List ResourceUpdate) (fops : List FrameMsg)
    (ns : List NotificationRequest) (b r : Bool) (fc : Nat) (hbs : Bool) :
    ((updateDocumentCore did sampler doc rc ru fops ns b r fc hbs).2.2.2.filter
        Effect.isNewFrameReady) =
      (if r then
        [Effect.notifyNewFrameReady did
          (updateDocPrelim sampler doc ru fops b r hbs).2.2.2.1
          (updateDocPrelim sampler doc ru fops b r hbs).2.2.1
          ((updateDocPrelim sampler doc ru fops b r hbs).2.1 &&
            (updateDocPrelim sampler doc ru fops b r hbs).1.has_pixels)]
      else []) := by
  rcases hpre : updateDocPrelim sampler doc ru fops b r hbs
    with ⟨d4, b5, r5, sc, effs⟩
  have heffs : ∀ ef ∈ effs, ef.isReply = true := by
    have h := updateDocPrelim_effects_reply sampler doc ru fops b r hbs
    rw [hpre] at h
    exact h
  have heffsF : effs.filter Effect.isNewFrameReady = [] := by
    rw [List.filter_eq_nil_iff]
    intro ef hef
    simp [(reply_not_special ef (heffs ef hef)).2.1]
  have hnotifF :
      (frameBuiltNotifications ns).filter Effect.isNewFrameReady = [] := by
    rw [List.filter_eq_nil_iff]
    intro ef hef
    rw [frameBuiltNotifications_mem ns ef hef]
    simp [Effect.isNewFrameReady]
  rcases hbf : d4.build_frame hbs with ⟨docb, rendered⟩
  simp only [updateDocumentCore, hpre, hbf]
  cases hb : b5 && d4.has_pixels <;>
    cases hr : r <;>
    simp [hb, Document.updated_pipeline_info, Effect.isNewFrameReady,
      List.filter_append, heffsF, hnotifF]

theorem updateDocumentCore_no_scene_send (did : DocId)
    (sampler : Option (List FrameMsg)) (doc : Document) (rc : ResourceCache)
    (ru : List ResourceUpdate) (fops : List FrameMsg)
    (ns : List NotificationRequest) (b r : Bool) (fc : Nat) (hbs : Bool) :
    ((updateDocumentCore did sampler doc rc ru fops ns b r fc hbs).2.2.2.any
        Effect.isSceneBuilderSend) = false := by
  rcases hpre : updateDocPrelim sampler doc ru fops b r hbs
    with ⟨d4, b5, r5, sc, effs⟩
  have heffs : ∀ ef ∈ effs, ef.isReply = true := by
    have h := updateDocPrelim_effects_reply sampler doc ru fops b r hbs
    rw [hpre] at h
    exact h
  have heffsS : effs.any Effect.isSceneBuilderSend = false :=
    replies_any_false effs heffs _ (fun ef h => (reply_not_special ef h).2.2)
  have hnotifS :
      (frameBuiltNotifications ns).any Effect.isSceneBuilderSend = false := by
    rw [List.any_eq_false]
    intro ef hef
    rw [frameBuiltNotifications_mem ns ef hef]
    simp [Effect.isSceneBuilderSend]
  rcases hbf : d4.build_frame hbs with ⟨docb, rendered⟩
  simp only [updateDocumentCore, hpre, hbf]
  cases hb : b5 && d4.has_pixels <;>
    cases hr : r <;>
    simp [hb, Document.updated_pipeline_info, Effect.isSceneBuilderSend,
      List.any_append, heffsS, hnotifS]

/-! ### The `frame_is_valid` step lemma -/

theorem eventDocAfterSwap_frame_is_valid (s : DocState) (e : DocEvent) :
    (eventDocAfterSwap s e).frame_is_valid =
      (if e.built.isSome then false else s.doc.frame_is_valid) := by
  cases hb : e.built <;>
    simp [eventDocAfterSwap, hb, Document.new_async_scene_ready]

theorem eventBuildsFrame_eq (did : DocId) (s : DocState) (e : DocEvent) :
    eventBuildsFrame did s e =
      ((updateDocPrelim s.sampler (eventDocAfterSwap s e) e.resource_updates
          e.frame_ops e.build_frame e.render_frame e.built.isSome).2.1 &&
        (updateDocPrelim s.sampler (eventDocAfterSwap s e) e.resource_updates
          e.frame_ops e.build_frame e.render_frame e.built.isSome).1.has_pixels) := by
  have h := updateDocumentCore_publish_iff did s.sampler (eventDocAfterSwap s e)
    (s.rc.add_rasterized_blob_images e.blobs) e.resource_updates e.frame_ops
    e.notifications e.build_frame e.render_frame s.frame_counter e.built.isSome
  rcases hc : updateDocumentCore did s.sampler (eventDocAfterSwap s e)
      (s.rc.add_rasterized_blob_images e.blobs) e.resource_updates e.frame_ops
      e.notifications e.build_frame e.render_frame s.frame_counter
      e.built.isSome with ⟨dd, rr, ff, effs⟩
  rw [hc] at h
  simp only [eventBuildsFrame, applyDocEvent, hc]
  exact h

theorem applyDocEvent_frame_is_valid (did : DocId) (s : DocState)
    (e : DocEvent) :
    ((applyDocEvent did s e).1).doc.frame_is_valid =
      (if eventBuildsFrame did s e then true
       else if eventInvalidates s e then false
       else s.doc.frame_is_valid) := by
  rcases h1 : processFrameOps (eventDocAfterSwap s e)
      (if e.build_frame then e.frame_ops ++ s.sampler.getD [] else e.frame_ops)
    with ⟨d1, agg, effs⟩
  have hchar := updateDocPrelim_char s.sampler (eventDocAfterSwap s e)
    e.resource_updates e.frame_ops e.build_frame e.render_frame e.built.isSome
    d1 agg effs h1
  have hbuilds := eventBuildsFrame_eq did s e
  rw [hchar] at hbuilds
  have hinv : eventInvalidates s e =
      (e.built.isSome ||
        anyInvalidatingOp (eventDocAfterSwap s e)
          (if e.build_frame then e.frame_ops ++ s.sampler.getD []
           else e.frame_ops) ||
        e.resource_updates.any ResourceUpdate.isUpdateImage ||
        d1.dynamic_properties.pending.isSome) := by
    simp only [eventInvalidates, h1]
  have hfv1 : d1.frame_is_valid =
      ((eventDocAfterSwap s e).frame_is_valid &&
        !anyInvalidatingOp (eventDocAfterSwap s e)
          (if e.build_frame then e.frame_ops ++ s.sampler.getD []
           else e.frame_ops)) := by
    have h := processFrameOps_frame_is_valid
      (if e.build_frame then e.frame_ops ++ s.sampler.getD [] else e.frame_ops)
      (eventDocAfterSwap s e)
    rw [h1] at h
    exact h
  rw [eventDocAfterSwap_frame_is_valid] at hfv1
  cases hfb : d1.frame_builder with
  | none =>
    simp only [applyDocEvent, updateDocumentCore, hchar]
    rw [hbuilds, hinv]
    simp only [hfv1, hfb, Document.can_render, Document.has_pixels,
      Scene.has_root_pipeline, Document.updated_pipeline_info,
      Document.build_frame, Option.isSome_none, Bool.and_false,
      Bool.false_and, Bool.not_false, Bool.and_true, Bool.true_and]
    cases hW : e.built.isSome <;>
      cases hX : anyInvalidatingOp (eventDocAfterSwap s e)
        (if e.build_frame then e.frame_ops ++ s.sampler.getD []
         else e.frame_ops) <;>
      cases hY : e.resource_updates.any ResourceUpdate.isUpdateImage <;>
      cases hZ : d1.dynamic_properties.pending.isSome <;>
      cases hA : s.doc.frame_is_valid <;>
      cases hR : e.render_frame <;>
      simp [hW, hX, hY, hZ, hA, hR, apply_ite]
  | some fb =>
    simp only [applyDocEvent, updateDocumentCore, hchar]
    rw [hbuilds, hinv]
    simp only [hfv1, hfb, Document.can_render, Document.has_pixels,
      Scene.has_root_pipeline, Document.updated_pipeline_info,
      Document.build_frame, Option.isSome_some, Bool.true_and]
    cases hW : e.built.isSome <;>
      cases hX : anyInvalidatingOp (eventDocAfterSwap s e)
        (if e.build_frame then e.frame_ops ++ s.sampler.getD []
         else e.frame_ops) <;>
      cases hY : e.resource_updates.any ResourceUpdate.isUpdateImage <;>
      cases hZ : d1.dynamic_properties.pending.isSome <;>
      cases hA : s.doc.frame_is_valid <;>
      cases hR : e.render_frame <;>
      cases hC : d1.scene.root_pipeline_id.isSome <;>
      cases hPX : (decide (d1.view.window_size.1 ≠ 0) &&
        decide (d1.view.window_size.2 ≠ 0)) <;>
      simp [hW, hX, hY, hZ, hA, hR, hC, hPX, apply_ite]

theorem runDocEvents_spec (did : DocId) (evs : List DocEvent) :
    ∀ (s : DocState) (expected : Bool), s.doc.frame_is_valid = expected →
      (runDocEvents did s evs).doc.frame_is_valid =
        specFrameValid did s expected evs := by
  induction evs with
  | nil =>
    intro s expected h
    simpa [runDocEvents, specFrameValid] using h
  | cons e es ih =>
    intro s expected h
    simp only [runDocEvents, specFrameValid]
    apply ih
    rw [applyDocEvent_frame_is_valid, h]

/-- C1: over any sequence of transactions applied to one document from its
creation — scene swaps, frame operations, resource updates,
dynamic-property flushes and frame builds, all through `update_document` —
`frame_is_valid` equals "a frame build has occurred since the last
invalidating event", where the invalidating events are exactly scene swap,
scroll, pan change, content-image update and dynamic-property flush. -/
theorem frame_is_valid_invariant (did : DocId) (window_size : Nat × Nat)
    (layer ratio : Int) (rc : ResourceCache)
    (sampler : Option (List FrameMsg)) (fc : Nat) (evs : List DocEvent) :
    (runDocEvents did
        ⟨Document.new window_size layer ratio, rc, fc, sampler⟩
        evs).doc.frame_is_valid =
      specFrameValid did
        ⟨Document.new window_size layer ratio, rc, fc, sampler⟩ false evs :=
  runDocEvents_spec did evs _ false rfl

/-- C7: the build decision of `update_document` — the surviving build flag
equals the accumulated build request (caller intent, frame-op requests, a
fresh scene swap, a dynamic-property flush) AND the document can render
AND the frame is not already valid; the surviving render flag equals the
requested render AND the document can render; and a frame is actually
constructed (published) exactly when the surviving build flag holds and
the window has pixels. -/
theorem update_document_build_suppression (did : DocId)
    (sampler : Option (List FrameMsg)) (doc : Document) (rc : ResourceCache)
    (ru : List ResourceUpdate) (fops : List FrameMsg)
    (ns : List NotificationRequest) (b r : Bool) (fc : Nat) (hbs : Bool) :
    ((updateDocPrelim sampler doc ru fops b r hbs).2.1 =
      ((((b ||
            (processFrameOps doc
              (if b then fops ++ sampler.getD [] else fops)).2.1.build_frame) ||
           hbs) ||
          (processFrameOps doc
            (if b then fops ++ sampler.getD []
             else fops)).1.dynamic_properties.pending.isSome) &&
        ((updateDocPrelim sampler doc ru fops b r hbs).1.can_render &&
          !(updateDocPrelim sampler doc ru fops b r hbs).1.frame_is_valid))) ∧
    ((updateDocPrelim sampler doc ru fops b r hbs).2.2.1 =
      (r && (updateDocPrelim sampler doc ru fops b r hbs).1.can_render)) ∧
    (((updateDocumentCore did sampler doc rc ru fops ns b r fc hbs).2.2.2).any
        Effect.isPublishDocument =
      ((updateDocPrelim sampler doc ru fops b r hbs).2.1 &&
        (updateDocPrelim sampler doc ru fops b r hbs).1.has_pixels)) := by
  rcases h1 : processFrameOps doc (if b then fops ++ sampler.getD [] else fops)
    with ⟨d1, agg, effs⟩
  have hchar := updateDocPrelim_char sampler doc ru fops b r hbs d1 agg effs h1
  refine ⟨?_, ?_, ?_⟩
  · rw [hchar]
    simp [Document.can_render, Bool.and_assoc]
  · rw [hchar]
    simp [Document.can_render]
  · exact updateDocumentCore_publish_iff did sampler doc rc ru fops ns b r fc hbs

/-- C8: when the transaction requested a frame on entry
(`render_frame = true`), `update_document` invokes the consumer's
`new_frame_ready` notification exactly once by the end of the call —
whether or not a frame was built — and the notification's render flag is
the post-suppression render flag; with no frame requested the notifier is
not called. -/
theorem frame_requested_notified_exactly_once (did : DocId)
    (sampler : Option (List FrameMsg)) (doc : Document) (rc : ResourceCache)
    (ru : List ResourceUpdate) (fops : List FrameMsg)
    (ns : List NotificationRequest) (b r : Bool) (fc : Nat) (hbs : Bool) :
    (((updateDocumentCore did sampler doc rc ru fops ns b r fc hbs).2.2.2).countP
        Effect.isNewFrameReady = if r then 1 else 0) ∧
    (((updateDocumentCore did sampler doc rc ru fops ns b r fc hbs).2.2.2).filter
        Effect.isNewFrameReady =
      (if r then
        [Effect.notifyNewFrameReady did
          (updateDocPrelim sampler doc ru fops b r hbs).2.2.2.1
          (updateDocPrelim sampler doc ru fops b r hbs).2.2.1
          ((updateDocPrelim sampler doc ru fops b r hbs).2.1 &&
            (updateDocPrelim sampler doc ru fops b r hbs).1.has_pixels)]
      else [])) := by
  have h := updateDocumentCore_new_frame_ready did sampler doc rc ru fops ns
    b r fc hbs
  refine ⟨?_, h⟩
  rw [List.countP_eq_length_filter, h]
  cases r <;> simp

theorem updateDocument_no_scene_send (st : Backend) (did : DocId)
    (ru : List ResourceUpdate) (fops : List FrameMsg)
    (ns : List NotificationRequest) (b r : Bool) (fc : Nat) (hbs : Bool)
    (out : Backend × Nat × List Effect)
    (h : updateDocument st did ru fops ns b r fc hbs = some out) :
    ∀ ef ∈ out.2.2, ef.isSceneBuilderSend = false := by
  intro ef hef
  rcases hd : st.documents.lookup did with _ | doc
  · rw [updateDocument, hd] at h
    cases h
  · rcases hc : updateDocumentCore did st.sampler doc st.resource_cache
        ru fops ns b r fc hbs with ⟨doc', rc', fc', effs⟩
    rw [updateDocument, hd] at h
    simp only [hc] at h
    have hany := updateDocumentCore_no_scene_send did st.sampler doc
      st.resource_cache ru fops ns b r fc hbs
    rw [hc] at hany
    cases h
    have := List.any_eq_false.mp hany ef hef
    simpa using this

/-- C3: a transaction whose assembled form contains no scene-build-requiring
operations and that was not flagged for the scene-builder thread takes the
fast path: `prepare_transaction` applies it immediately through
`update_document`, produces no `SceneRequest`, and sends nothing toward
either scene-builder channel. -/
theorem fast_path_no_scene_request (st : Backend) (did : DocId)
    (m : TransactionMsg) (fc : Nat) (st₁ : Backend) (txn : Transaction)
    (hasm : assembleTransaction st did m = some (st₁, txn))
    (hthread : m.use_scene_builder_thread = false)
    (hskip : txn.can_skip_scene_builder = true) :
    (prepareTransaction st did m fc =
      updateDocument st₁ txn.document_id txn.resource_updates txn.frame_ops
        txn.notifications txn.build_frame txn.render_frame fc false) ∧
    txn.request_scene_build = none ∧
    (∀ out, prepareTransaction st did m fc = some out →
      ∀ ef ∈ out.2.2, ef.isSceneBuilderSend = false) := by
  have heq : prepareTransaction st did m fc =
      updateDocument st₁ txn.document_id txn.resource_updates txn.frame_ops
        txn.notifications txn.build_frame txn.render_frame fc false := by
    simp [prepareTransaction, hasm, hthread, hskip]
  refine ⟨heq, ?_, ?_⟩
  · simp only [Transaction.can_skip_scene_builder, Bool.and_eq_true,
      Option.isNone_iff_eq_none] at hskip
    exact hskip.1.1.1.1.1
  · intro out hout
    rw [heq] at hout
    exact updateDocument_no_scene_send st₁ txn.document_id
      txn.resource_updates txn.frame_ops txn.notifications txn.build_frame
      txn.render_frame fc false out hout

/-- Witness for C3 at a concrete fast-path transaction (one `SetPan` frame
op, no scene ops, not routed through the builder). -/
theorem fast_path_no_scene_request_witness :
    (assembleTransaction
        ⟨[], [], [((1, 1), Document.new (8, 6) 0 1)], ⟨[], [], []⟩, none, 0, 1⟩
        (1, 1)
        ⟨[], [FrameMsg.SetPan (1, 2)], [], [], true, false, false⟩ =
      some
        (⟨[], [], [((1, 1), Document.new (8, 6) 0 1)], ⟨[], [], []⟩, none, 0, 1⟩,
          ⟨(1, 1), [], [], [], none, none, [], [],
            [FrameMsg.SetPan (1, 2)], [], none, true, true⟩)) ∧
    ((⟨[], [FrameMsg.SetPan (1, 2)], [], [], true, false,
        false⟩ : TransactionMsg).use_scene_builder_thread = false) ∧
    ((⟨(1, 1), [], [], [], none, none, [], [], [FrameMsg.SetPan (1, 2)], [],
        none, true, true⟩ : Transaction).can_skip_scene_builder = true) ∧
    ((prepareTransaction
        ⟨[], [], [((1, 1), Document.new (8, 6) 0 1)], ⟨[], [], []⟩, none, 0, 1⟩
        (1, 1) ⟨[], [FrameMsg.SetPan (1, 2)], [], [], true, false, false⟩ 0 =
      updateDocument
        ⟨[], [], [((1, 1), Document.new (8, 6) 0 1)], ⟨[], [], []⟩, none, 0, 1⟩
        (1, 1) [] [FrameMsg.SetPan (1, 2)] [] true true 0 false) ∧
      ((⟨(1, 1), [], [], [], none, none, [], [], [FrameMsg.SetPan (1, 2)], [],
          none, true, true⟩ : Transaction).request_scene_build = none) ∧
      (∀ out,
        prepareTransaction
            ⟨[], [], [((1, 1), Document.new (8, 6) 0 1)], ⟨[], [], []⟩, none,
              0, 1⟩
            (1, 1) ⟨[], [FrameMsg.SetPan (1, 2)], [], [], true, false, false⟩
            0 = some out →
        ∀ ef ∈ out.2.2, ef.isSceneBuilderSend = false)) :=
  ⟨by decide, rfl, by decide,
    fast_path_no_scene_request
      ⟨[], [], [((1, 1), Document.new (8, 6) 0 1)], ⟨[], [], []⟩, none, 0, 1⟩
      (1, 1) ⟨[], [FrameMsg.SetPan (1, 2)], [], [], true, false, false⟩ 0
      ⟨[], [], [((1, 1), Document.new (8, 6) 0 1)], ⟨[], [], []⟩, none, 0, 1⟩
      ⟨(1, 1), [], [], [], none, none, [], [], [FrameMsg.SetPan (1, 2)], [],
        none, true, true⟩
      (by decide) rfl (by decide)⟩

/-! ### Payload reassembly: exactly-once matching -/

theorem matchesKey_iff (p : Payload) (e pid : Nat) :
    p.matchesKey e pid = true ↔ p.key = (e, pid) := by
  simp [Payload.matchesKey, Payload.key, Prod.ext_iff]

theorem findMatchIdx_some (e pid : Nat) :
    ∀ (l : List Payload) (i : Nat), findMatchIdx e pid l = some i →
      ∃ x, l[i]? = some x ∧ x.matchesKey e pid = true := by
  intro l
  induction l with
  | nil => intro i h; simp [findMatchIdx] at h
  | cons d rest ih =>
    intro i h
    by_cases hm : d.matchesKey e pid = true
    · simp [findMatchIdx, hm] at h
      exact h ▸ ⟨d, by simp, hm⟩
    · simp [findMatchIdx, hm] at h
      rcases h with ⟨j, hj, rfl⟩
      rcases ih j hj with ⟨x, hx, hmx⟩
      exact ⟨x, by simpa using hx, hmx⟩

theorem findMatchIdx_none (e pid : Nat) :
    ∀ l : List Payload, findMatchIdx e pid l = none →
      ∀ d ∈ l, d.matchesKey e pid = false := by
  intro l
  induction l with
  | nil => intro _ d hd; simp at hd
  | cons a rest ih =>
    intro h d hd
    by_cases hm : a.matchesKey e pid = true
    · simp [findMatchIdx, hm] at h
    · simp [findMatchIdx, hm] at h
      rcases List.mem_cons.mp hd with rfl | hd'
      · simpa using hm
      · exact ih h d hd'

theorem set_cons_is_cons (b : Payload) (t' : List Payload) (j : Nat)
    (v : Payload) : ∃ c cs, (b :: t').set j v = c :: cs := by
  cases j with
  | zero => exact ⟨v, t', rfl⟩
  | succ j => exact ⟨b, t'.set j v, rfl⟩

theorem swapRemove_perm :
    ∀ (l : List Payload) (i : Nat) (x : Payload) (res : List Payload),
      swapRemove l i = some (x, res) → (x :: res).Perm l := by
  intro l
  induction l with
  | nil => intro i x res h; simp [swapRemove] at h
  | cons a t ih =>
    intro i x res h
    cases i with
    | zero =>
      cases t with
      | nil =>
        simp [swapRemove] at h
        obtain ⟨rfl, rfl⟩ := h
        exact List.Perm.refl _
      | cons b t' =>
        rcases hlast : (b :: t').getLast? with _ | last
        · simp [List.getLast?_eq_none_iff] at hlast
        · simp [swapRemove, List.getLast?_cons_cons, hlast,
            List.dropLast_cons₂] at h
          obtain ⟨rfl, rfl⟩ := h
          refine List.Perm.cons a ?_
          have hmem : last ∈ (b :: t').getLast? := by simp [hlast]
          have hconcat := List.dropLast_append_getLast? last hmem
          have hstep : (last :: (b :: t').dropLast).Perm
              ((b :: t').dropLast ++ [last]) :=
            (List.perm_append_singleton _ _).symm
          rw [hconcat] at hstep
          exact hstep
    | succ j =>
      cases t with
      | nil => simp [swapRemove] at h
      | cons b t' =>
        rcases hg : (b :: t')[j]? with _ | y
        · simp [swapRemove, List.getElem?_cons_succ, hg] at h
        · rcases hlast : (b :: t').getLast? with _ | last
          · simp [List.getLast?_eq_none_iff] at hlast
          · obtain ⟨c, cs, hset⟩ := set_cons_is_cons b t' j last
            simp [swapRemove, List.getElem?_cons_succ, hg,
              List.getLast?_cons_cons, hlast, hset, List.dropLast_cons₂] at h
            obtain ⟨rfl, rfl⟩ := h
            have ih' := ih j y ((b :: t').set j last).dropLast
              (by simp [swapRemove, hg, hlast])
            rw [hset] at ih'
            exact (List.Perm.swap a y _).trans (List.Perm.cons a ih')

theorem recvUntil_spec (e pid : Nat) :
    ∀ (channel buffer : List Payload),
      (∃ d ∈ channel, d.matchesKey e pid = true) →
      ∃ d buf' chan',
        recvUntil e pid channel buffer = some (d, buf', chan') ∧
        d.matchesKey e pid = true ∧
        (d :: (buf' ++ chan')).Perm (buffer ++ channel) := by
  intro channel
  induction channel with
  | nil => intro buffer h; simp at h
  | cons d rest ih =>
    intro buffer h
    by_cases hm : d.matchesKey e pid = true
    · refine ⟨d, buffer, rest, by simp [recvUntil, hm], hm, ?_⟩
      exact (List.perm_middle).symm
    · have h' : ∃ x ∈ rest, x.matchesKey e pid = true := by
        rcases h with ⟨x, hx, hmx⟩
        rcases List.mem_cons.mp hx with rfl | hx'
        · exact absurd hmx hm
        · exact ⟨x, hx', hmx⟩
      rcases ih (buffer ++ [d]) h' with ⟨x, buf', chan', hrec, hmx, hperm⟩
      refine ⟨x, buf', chan', by simp [recvUntil, hm, hrec], hmx, ?_⟩
      have hrw : buffer ++ [d] ++ rest = buffer ++ (d :: rest) := by simp
      rw [hrw] at hperm
      exact hperm

theorem resolvePayload_spec (e pid : Nat) (buffer channel : List Payload)
    (hex : ∃ d ∈ buffer ++ channel, d.matchesKey e pid = true) :
    ∃ d buf' chan',
      resolvePayload e pid buffer channel = some (d, buf', chan') ∧
      d.matchesKey e pid = true ∧
      (d :: (buf' ++ chan')).Perm (buffer ++ channel) := by
  rcases hidx : findMatchIdx e pid buffer with _ | idx
  · have hnone := findMatchIdx_none e pid buffer hidx
    have hchan : ∃ d ∈ channel, d.matchesKey e pid = true := by
      rcases hex with ⟨d, hd, hmd⟩
      rcases List.mem_append.mp hd with hd | hd
      · rw [hnone d hd] at hmd
        cases hmd
      · exact ⟨d, hd, hmd⟩
    rcases recvUntil_spec e pid channel buffer hchan
      with ⟨d, buf', chan', hrec, hmd, hperm⟩
    exact ⟨d, buf', chan', by simp [resolvePayload, hidx, hrec], hmd, hperm⟩
  · rcases findMatchIdx_some e pid buffer idx hidx with ⟨x, hget, hmx⟩
    have hnonnil : buffer ≠ [] := by
      intro hnil
      rw [hnil] at hget
      simp at hget
    rcases hlast : buffer.getLast? with _ | last
    · simp [List.getLast?_eq_none_iff] at hlast
      exact absurd hlast hnonnil
    · have hsw : swapRemove buffer idx =
          some (x, (buffer.set idx last).dropLast) := by
        simp [swapRemove, hget, hlast]
      have hperm := swapRemove_perm buffer idx x
        ((buffer.set idx last).dropLast) hsw
      refine ⟨x, (buffer.set idx last).dropLast, channel,
        by simp [resolvePayload, hidx, hsw], hmx, ?_⟩
      exact hperm.append_right channel

theorem processAll_spec :
    ∀ (msgs : List (Nat × Nat)) (buffer channel : List Payload),
      (payloadKeys (buffer ++ channel)).Perm msgs →
      ∃ pairs, processAll msgs buffer channel = some (pairs, [], []) ∧
        pairs.map Prod.fst = msgs ∧
        (∀ pr ∈ pairs, pr.2.key = pr.1) ∧
        (pairs.map Prod.snd).Perm (buffer ++ channel) := by
  intro msgs
  induction msgs with
  | nil =>
    intro buffer channel hkeys
    have hnil : buffer ++ channel = [] := by
      have := hkeys.symm.length_eq
      simpa [payloadKeys] using List.eq_nil_of_length_eq_zero this.symm
    rcases List.append_eq_nil.mp hnil with ⟨hb, hc⟩
    subst hb; subst hc
    exact ⟨[], rfl, rfl, by simp, by simp⟩
  | cons k rest ih =>
    intro buffer channel hkeys
    have hex : ∃ d ∈ buffer ++ channel, d.matchesKey k.1 k.2 = true := by
      have hk : k ∈ payloadKeys (buffer ++ channel) :=
        hkeys.mem_iff.mpr (List.mem_cons_self k rest)
      rcases List.mem_map.mp hk with ⟨d, hd, hdk⟩
      exact ⟨d, hd, (matchesKey_iff d k.1 k.2).mpr (by simpa using hdk)⟩
    rcases resolvePayload_spec k.1 k.2 buffer channel hex
      with ⟨d, buf', chan', hres, hmd, hperm⟩
    have hdk : d.key = k := (matchesKey_iff d k.1 k.2).mp hmd
    have hkeys' : (payloadKeys (buf' ++ chan')).Perm rest := by
      have hmap : (payloadKeys (d :: (buf' ++ chan'))).Perm
          (payloadKeys (buffer ++ channel)) := hperm.map Payload.key
      have : (d.key :: payloadKeys (buf' ++ chan')).Perm (k :: rest) :=
        hmap.trans hkeys
      rw [hdk] at this
      exact this.cons_inv
    rcases ih buf' chan' hkeys' with ⟨pairs, hall, hfst, hsnd, hperm'⟩
    refine ⟨(k, d) :: pairs, ?_, by simp [hfst], ?_, ?_⟩
    · simp only [processAll, hres, hall]
    · intro pr hpr
      rcases List.mem_cons.mp hpr with rfl | hpr'
      · simp [hdk]
      · exact hsnd pr hpr'
    · exact (hperm'.cons d).trans hperm

/-- C2: payload reassembly is exactly-once — for any arrival order of the
payloads of N metadata keys (each key having exactly one payload on the
channel), resolving the metadata messages in order pairs every message
with the payload carrying its key, consumes every payload exactly once
(the final buffer and channel are empty), and never pairs a payload
twice. -/
theorem payload_reassembly_exactly_once (msgs : List (Nat × Nat))
    (channel : List Payload) (_hnd : msgs.Nodup)
    (hkeys : (payloadKeys channel).Perm msgs) :
    ∃ pairs, processAll msgs [] channel = some (pairs, [], []) ∧
      pairs.map Prod.fst = msgs ∧
      (∀ pr ∈ pairs, pr.2.key = pr.1) ∧
      (pairs.map Prod.snd).Perm channel :=
  processAll_spec msgs [] channel (by simpa using hkeys)

/-- Witness for C2: two display lists whose payloads arrive in the
opposite order. -/
theorem payload_reassembly_exactly_once_witness :
    ([((0 : Nat), (1 : Nat)), (2, 3)].Nodup) ∧
    (payloadKeys [⟨2, 3, 7⟩, ⟨0, 1, 5⟩]).Perm [(0, 1), (2, 3)] ∧
    (∃ pairs,
      processAll [(0, 1), (2, 3)] [] [⟨2, 3, 7⟩, ⟨0, 1, 5⟩] =
          some (pairs, [], []) ∧
        pairs.map Prod.fst = [(0, 1), (2, 3)] ∧
        (∀ pr ∈ pairs, pr.2.key = pr.1) ∧
        (pairs.map Prod.snd).Perm [⟨2, 3, 7⟩, ⟨0, 1, 5⟩]) :=
  ⟨by decide, by decide,
    payload_reassembly_exactly_once [(0, 1), (2, 3)] [⟨2, 3, 7⟩, ⟨0, 1, 5⟩]
      (by decide) (by decide)⟩

end WR
